import Mathlib

/-!
Verification of the Sherlock Domains TypeScript SDK (`src/sherlock.ts`).

The client is embedded shallowly: JSON values become the inductive `Val`
(an association list keeps object key order, with JavaScript's
last-binding-wins lookup), `undefined` becomes `none : Option Val`, and
each `async` method of the `Sherlock` class becomes a computation in the
monad `M`, which threads the instance state, consumes a list of mocked
HTTP responses in order, and records the list of HTTP requests issued.
A thrown JavaScript value is an `Except.error` carrying that value.

Deliberate simplifications, none of which is exercised by the theorems
below: `JSON.stringify` is modelled as the identity on the decoded value
(a request body is the value that was stringified); JSON numbers are
integers; `String.trim` stands for JavaScript `trim`; `console.log`
calls are ignored; spreading a primitive other than a string or array
contributes no entries.
-/

/-- JSON-like runtime values. Objects are association lists in key order;
a later binding for the same key shadows an earlier one, as in JavaScript. -/
inductive Val where
  | null : Val
  | bool : Bool → Val
  | num : Int → Val
  | str : String → Val
  | arr : List Val → Val
  | obj : List (String × Val) → Val

/-- A possibly-`undefined` JavaScript value (`none` is `undefined`). -/
abbrev JsVal := Option Val

/-- Own-property lookup on an object's entry list: the LAST binding for a
key wins, as for JavaScript object literals and `JSON.parse`. -/
def objGet (kvs : List (String × Val)) (k : String) : Option Val :=
  Option.map Prod.snd (kvs.reverse.find? fun p => p.1 == k)

/-- JavaScript truthiness of a defined value. -/
def Val.truthy : Val → Bool
  | Val.null => false
  | Val.bool b => b
  | Val.num n => decide (n ≠ 0)
  | Val.str s => decide (s ≠ "")
  | Val.arr _ => true
  | Val.obj _ => true

/-- JavaScript truthiness, with `undefined` falsy. -/
def truthyOpt : JsVal → Bool
  | none => false
  | some v => v.truthy

/-- Digit value of a character, `none` for non-digits. -/
def digitVal (c : Char) : Option Nat :=
  if c.isDigit then some (c.toNat - 48) else none

/-- Decimal reading of a character list (auxiliary for `strToNat?`). -/
def strToNatAux : List Char → Nat → Option Nat
  | [], acc => some acc
  | c :: cs, acc =>
    match digitVal c with
    | some d => strToNatAux cs (acc * 10 + d)
    | none => none

/-- Reads a string of decimal digits as a number (the index form used for
array element access by property key). -/
def strToNat? (s : String) : Option Nat :=
  match s.data with
  | [] => none
  | l => strToNatAux l 0

/-- Non-throwing property read `v[k]` on a value already known not to be
`null`/`undefined`: named fields of objects, numeric indices of arrays
and strings; other reads are `undefined`. -/
def jsField : Val → String → Option Val
  | Val.obj kvs, k => objGet kvs k
  | Val.arr vs, k =>
    match strToNat? k with
    | some i => vs.get? i
    | none => none
  | Val.str s, k =>
    match strToNat? k with
    | some i => Option.map (fun c => Val.str c.toString) (s.data.get? i)
    | none => none
  | _, _ => none

/-- The `TypeError` a property read on `undefined` or `null` throws. -/
def typeErrorRead (base : String) (k : String) : Val :=
  Val.str ("TypeError: Cannot read properties of " ++ base ++ " (reading " ++ k ++ ")")

/-- Property access `v[k]` with JavaScript exception behaviour: reading a
property of `undefined` or `null` throws a `TypeError`. -/
def jsAccess (v : JsVal) (k : String) : Except Val (Option Val) :=
  match v with
  | none => Except.error (typeErrorRead "undefined" k)
  | some Val.null => Except.error (typeErrorRead "null" k)
  | some w => Except.ok (jsField w k)

/-- Entries contributed by spreading a value into an object literal
(`{ ...data }`): objects give their entries, arrays and strings their
indexed elements, other primitives nothing. -/
def spreadEntries : Val → List (String × Val)
  | Val.obj kvs => kvs
  | Val.arr vs => vs.enum.map fun p => (toString p.1, p.2)
  | Val.str s => s.data.enum.map fun p => (toString p.1, Val.str p.2.toString)
  | _ => []

mutual

/-- JavaScript `String(v)` coercion of a defined value. -/
def jsToStringV : Val → String
  | Val.null => "null"
  | Val.bool b => cond b "true" "false"
  | Val.num n => toString n
  | Val.str s => s
  | Val.arr vs => jsToStringArr vs
  | Val.obj _ => "[object Object]"

/-- `Array.prototype.join` with comma separator; `null` elements become
the empty string. -/
def jsToStringArr : List Val → String
  | [] => ""
  | [Val.null] => ""
  | [v] => jsToStringV v
  | Val.null :: vs => "," ++ jsToStringArr vs
  | v :: vs => jsToStringV v ++ "," ++ jsToStringArr vs

end

/-- JavaScript `String(v)` coercion, `undefined` included. -/
def jsToString : JsVal → String
  | none => "undefined"
  | some v => jsToStringV v

/-- JavaScript `a || b`. -/
def jsOr (a b : JsVal) : JsVal :=
  if truthyOpt a then a else b

/-- Entries of an object literal as `JSON.stringify` serialises it:
properties whose value is `undefined` are dropped. -/
def jsonEntries : List (String × JsVal) → List (String × Val)
  | [] => []
  | (k, some v) :: rest => (k, v) :: jsonEntries rest
  | (_, none) :: rest => jsonEntries rest

/-- Uppercase hexadecimal digit. -/
def hexDigitChar (n : Nat) : Char :=
  if n < 10 then Char.ofNat (48 + n) else Char.ofNat (55 + n)

/-- Percent-encoding of a single byte. -/
def percentEncodeByte (n : Nat) : String :=
  "%" ++ (hexDigitChar (n / 16)).toString ++ (hexDigitChar (n % 16)).toString

/-- `application/x-www-form-urlencoded` encoding of one UTF-8 byte, as
`URLSearchParams` produces it. -/
def formEncodeByte (n : Nat) : String :=
  if (65 ≤ n ∧ n ≤ 90) ∨ (97 ≤ n ∧ n ≤ 122) ∨ (48 ≤ n ∧ n ≤ 57)
      ∨ n = 42 ∨ n = 45 ∨ n = 46 ∨ n = 95 then
    (Char.ofNat n).toString
  else if n = 32 then "+"
  else percentEncodeByte n

/-- UTF-8 encoding of one character as a byte list. -/
def utf8Bytes (c : Char) : List Nat :=
  let n := c.toNat
  if n < 128 then [n]
  else if n < 2048 then [192 + n / 64, 128 + n % 64]
  else if n < 65536 then [224 + n / 4096, 128 + n / 64 % 64, 128 + n % 64]
  else [240 + n / 262144, 128 + n / 4096 % 64, 128 + n / 64 % 64, 128 + n % 64]

/-- `URLSearchParams` encoding of a string, byte by byte over UTF-8. -/
def formEncode (s : String) : String :=
  String.join (((s.data.map utf8Bytes).flatten).map formEncodeByte)

/-- Embeds the module constant `API_URL` (src/sherlock.ts:5). -/
def API_URL : String := "https://api.sherlockdomains.com"

/-- The required-field list of `requireCompleteContact`
(src/sherlock.ts:27), in declaration order. -/
def requiredFields : List String :=
  ["first_name", "last_name", "email", "address", "city", "state", "postal_code", "country"]

/-- The object thrown when no contact at all is available
(src/sherlock.ts:24). -/
def contactRequiredError : Val :=
  Val.obj [("error", Val.str "Contact information is required")]

/-- `missingFields.join(', ')`. -/
def joinComma : List String → String
  | [] => ""
  | [s] => s
  | s :: rest => s ++ ", " ++ joinComma rest

/-- JavaScript `String.prototype.trim`: strips leading and trailing
whitespace. -/
def jsTrim (s : String) : String :=
  ⟨((s.data.dropWhile Char.isWhitespace).reverse.dropWhile Char.isWhitespace).reverse⟩

/-- The structured object thrown on an incomplete contact
(src/sherlock.ts:31-34): the template literal with `join(', ')` and the
singular/plural choice, plus the `missingFields` list. -/
def incompleteContactError (missingFields : List String) : Val :=
  Val.obj
    [("error", Val.str ("Incomplete contact information: "
        ++ joinComma missingFields ++ " "
        ++ (if missingFields.length == 1 then "is" else "are")
        ++ " required and cannot be empty")),
     ("missingFields", Val.arr (missingFields.map Val.str))]

/-- One evaluation of the filter callback
`field => !contact[field] || contact[field].trim() === ''`
(src/sherlock.ts:28). `Except.ok true` means the field counts as missing.
A truthy non-string field value would make `.trim()` throw a `TypeError`
in JavaScript, modelled by the `Except.error` branch. -/
def fieldMissingStep (contact : Val) (field : String) : Except Val Bool :=
  match jsField contact field with
  | none => Except.ok true
  | some v =>
    if v.truthy then
      match v with
      | Val.str s => Except.ok (decide (jsTrim s = ""))
      | _ => Except.error (Val.str "TypeError: contact[field].trim is not a function")
    else Except.ok true

/-- `requiredFields.filter(...)` of src/sherlock.ts:28, with the filter
callback evaluated left to right and any exception aborting the filter. -/
def filterMissingFields (contact : Val) : List String → Except Val (List String)
  | [] => Except.ok []
  | f :: fs => do
    let missing ← fieldMissingStep contact f
    let rest ← filterMissingFields contact fs
    Except.ok (if missing then f :: rest else rest)

/-- Embeds `requireCompleteContact` (src/sherlock.ts:22-36). The argument
is the erased runtime value (`contact?: any`); a thrown value is returned
as `Except.error`. -/
def requireCompleteContact (contact : JsVal) : Except Val Unit :=
  if truthyOpt contact = false then Except.error contactRequiredError
  else
    match contact with
    | none => Except.error contactRequiredError
    | some c => do
      let missingFields ← filterMissingFields c requiredFields
      if missingFields.length > 0 then Except.error (incompleteContactError missingFields)
      else Except.ok ()

/-- An HTTP request as issued through `fetch`: URL, method (`GET` when the
source passes no `method` option), header list in the order assembled, and
the decoded value whose `JSON.stringify` is the body (`none`: no body). -/
structure Request where
  url : String
  method : String
  headers : List (String × String)
  body : Option Val

/-- A mocked HTTP response: its status code and the value its body decodes
to (`await response.json()`). -/
structure Response where
  status : Nat
  body : Val

/-- `response.ok`: status in the inclusive range 200-299. -/
def Response.isOk (r : Response) : Bool :=
  decide (200 ≤ r.status ∧ r.status < 300)

/-- The instance state of the `Sherlock` class (src/sherlock.ts:38-44):
the optional bearer token fixed by the constructor and the optional
cached contact. -/
structure Sherlock where
  accessToken : Option String
  contact : JsVal

/-- Outcome of running a client computation: the returned value or thrown
value, the final instance state, the unconsumed responses, and the
requests issued, in order. -/
structure MOut (α : Type) where
  result : Except Val α
  state : Sherlock
  rest : List Response
  trace : List Request

/-- The effect monad of the embedding: state of the client instance, a
response oracle consumed one response per `fetch`, and a request trace. -/
def M (α : Type) : Type :=
  Sherlock → List Response → MOut α

def M.pure {α : Type} (a : α) : M α :=
  fun st rs => ⟨Except.ok a, st, rs, []⟩

def M.bind {α β : Type} (x : M α) (f : α → M β) : M β :=
  fun st rs =>
    let o := x st rs
    match o.result with
    | Except.error e => ⟨Except.error e, o.state, o.rest, o.trace⟩
    | Except.ok a =>
      let o2 := f a o.state o.rest
      ⟨o2.result, o2.state, o2.rest, o.trace ++ o2.trace⟩

instance : Monad M where
  pure := M.pure
  bind := M.bind

/-- Throwing a JavaScript value. -/
def M.throw {α : Type} (v : Val) : M α :=
  fun st rs => ⟨Except.error v, st, rs, []⟩

/-- Reading `this`. -/
def M.getState : M Sherlock :=
  fun st rs => ⟨Except.ok st, st, rs, []⟩

/-- Lift a pure throwing computation. -/
def M.ofExcept {α : Type} (e : Except Val α) : M α :=
  fun st rs => ⟨e, st, rs, []⟩

/-- `await fetch(...)`: records the request and consumes the next mocked
response; with no response left it models a transport-level failure
(rejected fetch), which still records the request as issued. -/
def M.fetch (req : Request) : M Response :=
  fun st rs =>
    match rs with
    | [] => ⟨Except.error (Val.str "network error"), st, [], [req]⟩
    | r :: rest => ⟨Except.ok r, st, rest, [req]⟩

/-- The string thrown by every `if (!this.accessToken) throw 'Not
authenticated'` guard. -/
def notAuthenticated : Val := Val.str "Not authenticated"

/-- The guard line `if (!this.accessToken) throw 'Not authenticated'`
repeated at the head of each authenticated method: the continuation runs
with the token when it is present and truthy (the empty string is falsy). -/
def M.withAuth {α : Type} (k : String → M α) : M α := do
  let s ← M.getState
  match s.accessToken with
  | none => M.throw notAuthenticated
  | some tok =>
    if tok = "" then M.throw notAuthenticated
    else k tok

/-- The `Authorization` header. -/
def bearerHeader (tok : String) : String × String :=
  ("Authorization", "Bearer " ++ tok)

/-- The `Content-Type` header of JSON requests. -/
def contentTypeJson : String × String :=
  ("Content-Type", "application/json")

/-- The `data && data.error` test of src/sherlock.ts:55. -/
def dataHasError (data : Val) : Bool :=
  data.truthy && truthyOpt (jsField data "error")

/-- Embeds `Sherlock.handleResponse` (src/sherlock.ts:46-60): a non-2xx
status, or an `error` field in the decoded body even under a success
status, throws `{ status: response.status, ...data }`; otherwise the
decoded body is returned unmodified. -/
def Sherlock.handleResponse (r : Response) : M Val :=
  if r.isOk = false then
    M.throw (Val.obj (("status", Val.num r.status) :: spreadEntries r.body))
  else if dataHasError r.body then
    M.throw (Val.obj (("status", Val.num r.status) :: spreadEntries r.body))
  else
    M.pure r.body

/-- Embeds `Sherlock.me` (src/sherlock.ts:62-68). -/
def Sherlock.me : M Val :=
  M.withAuth fun tok => do
    let r ← M.fetch ⟨API_URL ++ "/api/v0/auth/me", "GET", [bearerHeader tok], none⟩
    Sherlock.handleResponse r

/-- Embeds `Sherlock.claimAccount` (src/sherlock.ts:70-81). The parameter
is the erased runtime value of `email`. -/
def Sherlock.claimAccount (email : JsVal) : M Val :=
  M.withAuth fun tok => do
    let r ← M.fetch ⟨API_URL ++ "/api/v0/auth/email-link", "POST",
      [bearerHeader tok, contentTypeJson],
      some (Val.obj (jsonEntries [("email", email)]))⟩
    Sherlock.handleResponse r

/-- Embeds `Sherlock.search` (src/sherlock.ts:83-87): unauthenticated, no
`Authorization` header; `new URLSearchParams({ query })` coerces the value
to a string and form-encodes it. -/
def Sherlock.search (query : JsVal) : M Val := do
  let params := "query=" ++ formEncode (jsToString query)
  let r ← M.fetch ⟨API_URL ++ "/api/v0/domains/search?" ++ params, "GET", [], none⟩
  Sherlock.handleResponse r

/-- Embeds `Sherlock.domains` (src/sherlock.ts:89-95). -/
def Sherlock.domains : M Val :=
  M.withAuth fun tok => do
    let r ← M.fetch ⟨API_URL ++ "/api/v0/domains/domains", "GET", [bearerHeader tok], none⟩
    Sherlock.handleResponse r

/-- Embeds `Sherlock.updateNameservers` (src/sherlock.ts:97-108). -/
def Sherlock.updateNameservers (domainId nameservers : JsVal) : M Val :=
  M.withAuth fun tok => do
    let r ← M.fetch ⟨API_URL ++ "/api/v0/domains/" ++ jsToString domainId ++ "/nameservers",
      "PATCH", [bearerHeader tok, contentTypeJson],
      some (Val.obj (jsonEntries [("nameservers", nameservers)]))⟩
    Sherlock.handleResponse r

/-- Embeds `Sherlock.dnsRecords` (src/sherlock.ts:110-116). -/
def Sherlock.dnsRecords (domainId : JsVal) : M Val :=
  M.withAuth fun tok => do
    let r ← M.fetch ⟨API_URL ++ "/api/v0/domains/" ++ jsToString domainId ++ "/dns/records",
      "GET", [bearerHeader tok], none⟩
    Sherlock.handleResponse r

/-- Destructuring an object parameter (`{ type = ..., ... }`): JavaScript
throws a `TypeError` when the destructured value is `undefined` or `null`;
any other value is destructured (primitives yield no named properties). -/
def requireDestructurable (v : JsVal) : Except Val Val :=
  match v with
  | none => Except.error (Val.str "TypeError: cannot destructure parameter of undefined")
  | some Val.null => Except.error (Val.str "TypeError: cannot destructure parameter of null")
  | some w => Except.ok w

/-- Embeds `Sherlock.createDns` (src/sherlock.ts:118-136). The record
descriptor is destructured with defaults `type = "TXT"`, `name = "test"`,
`value = "test-1"`, `ttl = 3600`, applied when the property is absent
or `undefined`; parameter destructuring happens before the guard. -/
def Sherlock.createDns (domainId params : JsVal) : M Val := do
  let p ← M.ofExcept (requireDestructurable params)
  let type := (jsField p "type").getD (Val.str "TXT")
  let name := (jsField p "name").getD (Val.str "test")
  let value := (jsField p "value").getD (Val.str "test-1")
  let ttl := (jsField p "ttl").getD (Val.num 3600)
  M.withAuth fun tok => do
    let r ← M.fetch ⟨API_URL ++ "/api/v0/domains/" ++ jsToString domainId ++ "/dns/records",
      "POST", [bearerHeader tok, contentTypeJson],
      some (Val.obj [("records", Val.arr [Val.obj
        [("type", type), ("name", name), ("value", value), ("ttl", ttl)]])])⟩
    Sherlock.handleResponse r

/-- Embeds `Sherlock.updateDns` (src/sherlock.ts:138-156), defaults
`type = "TXT"`, `name = "test-2"`, `value = "test-2"`, `ttl = 3600`. -/
def Sherlock.updateDns (domainId recordId params : JsVal) : M Val := do
  let p ← M.ofExcept (requireDestructurable params)
  let type := (jsField p "type").getD (Val.str "TXT")
  let name := (jsField p "name").getD (Val.str "test-2")
  let value := (jsField p "value").getD (Val.str "test-2")
  let ttl := (jsField p "ttl").getD (Val.num 3600)
  M.withAuth fun tok => do
    let r ← M.fetch ⟨API_URL ++ "/api/v0/domains/" ++ jsToString domainId ++ "/dns/records",
      "PATCH", [bearerHeader tok, contentTypeJson],
      some (Val.obj [("records", Val.arr [Val.obj (jsonEntries
        [("id", recordId), ("type", some type), ("name", some name),
         ("value", some value), ("ttl", some ttl)])])])⟩
    Sherlock.handleResponse r

/-- Embeds `Sherlock.deleteDns` (src/sherlock.ts:158-165). -/
def Sherlock.deleteDns (domainId recordId : JsVal) : M Val :=
  M.withAuth fun tok => do
    let r ← M.fetch ⟨API_URL ++ "/api/v0/domains/" ++ jsToString domainId
        ++ "/dns/records/" ++ jsToString recordId,
      "DELETE", [bearerHeader tok], none⟩
    Sherlock.handleResponse r

/-- Embeds `Sherlock.getContactInformation` (src/sherlock.ts:167-173). -/
def Sherlock.getContactInformation : M Val :=
  M.withAuth fun tok => do
    let r ← M.fetch ⟨API_URL ++ "/api/v0/users/contact-information", "GET",
      [bearerHeader tok], none⟩
    Sherlock.handleResponse r

/-- Embeds `Sherlock.setContactInformation` (src/sherlock.ts:175-186):
the body is `JSON.stringify(contact)` of the whole argument. -/
def Sherlock.setContactInformation (contact : JsVal) : M Val :=
  M.withAuth fun tok => do
    let r ← M.fetch ⟨API_URL ++ "/api/v0/users/contact-information", "POST",
      [bearerHeader tok, contentTypeJson], contact⟩
    Sherlock.handleResponse r

/-- Embeds the synchronous setter `Sherlock.setContact`
(src/sherlock.ts:188-190): overwrites the cached contact field. -/
def Sherlock.setContact (s : Sherlock) (contact : JsVal) : Sherlock :=
  { s with contact := contact }

/-- Embeds `Sherlock.getPurchaseOffers` (src/sherlock.ts:192-212): auth
guard, `contact || this.contact`, `requireCompleteContact`, then the
offer request. -/
def Sherlock.getPurchaseOffers (domain searchId contact : JsVal) : M Val :=
  M.withAuth fun tok => do
    let s ← M.getState
    let contactInfo := jsOr contact s.contact
    M.ofExcept (requireCompleteContact contactInfo)
    let r ← M.fetch ⟨API_URL ++ "/api/v0/domains/purchase", "POST",
      [bearerHeader tok, contentTypeJson],
      some (Val.obj (jsonEntries
        [("domain", domain), ("contact_information", contactInfo), ("search_id", searchId)]))⟩
    Sherlock.handleResponse r

/-- Embeds `Sherlock.getX402PurchaseOffers` (src/sherlock.ts:214-235):
same validation, but the response body is decoded without
`handleResponse` and returned as `{ status: 402, ...data }`. -/
def Sherlock.getX402PurchaseOffers (domain searchId contact : JsVal) : M Val :=
  M.withAuth fun tok => do
    let s ← M.getState
    let contactInfo := jsOr contact s.contact
    M.ofExcept (requireCompleteContact contactInfo)
    let r ← M.fetch ⟨API_URL ++ "/api/v0/domains/purchase-x402", "POST",
      [bearerHeader tok, contentTypeJson],
      some (Val.obj (jsonEntries
        [("domain", domain), ("contact_information", contactInfo), ("search_id", searchId)]))⟩
    M.pure (Val.obj (("status", Val.num 402) :: spreadEntries r.body))

/-- Embeds `Sherlock.purchaseX402` (src/sherlock.ts:237-257): the payment
signature travels in a `PAYMENT-SIGNATURE` header. -/
def Sherlock.purchaseX402 (domain searchId paymentSignature contact : JsVal) : M Val :=
  M.withAuth fun tok => do
    let s ← M.getState
    let contactInfo := jsOr contact s.contact
    M.ofExcept (requireCompleteContact contactInfo)
    let r ← M.fetch ⟨API_URL ++ "/api/v0/domains/purchase-x402", "POST",
      [bearerHeader tok, contentTypeJson,
       ("PAYMENT-SIGNATURE", jsToString paymentSignature)],
      some (Val.obj (jsonEntries
        [("domain", domain), ("contact_information", contactInfo), ("search_id", searchId)]))⟩
    Sherlock.handleResponse r

/-- Embeds `Sherlock.getPaymentDetails` (src/sherlock.ts:282-293): posts
to the caller-supplied URL with no `Authorization` header and no auth
guard. -/
def Sherlock.getPaymentDetails (paymentRequestUrl offerId paymentMethod paymentContextToken : JsVal) : M Val := do
  let r ← M.fetch ⟨jsToString paymentRequestUrl, "POST", [contentTypeJson],
    some (Val.obj (jsonEntries
      [("offer_id", offerId), ("payment_method", paymentMethod),
       ("payment_context_token", paymentContextToken)]))⟩
  Sherlock.handleResponse r

/-- Embeds `Sherlock.purchaseDomain` (src/sherlock.ts:259-280): auth
guard, contact fetch, completeness check of the fetched contact, offer
request carrying that contact, then payment submission built from
`offers.payment_request_url`, `offers.offers[0].id`, the payment method
(default `'credit_card'` when the argument is `undefined`) and
`offers.payment_context_token`, with JavaScript property-access
evaluation order and exceptions. `console.log` calls are ignored. -/
def Sherlock.purchaseDomain (searchId domain paymentMethod : JsVal) : M Val := do
  let pm := paymentMethod.getD (Val.str "credit_card")
  let s ← M.getState
  match s.accessToken with
  | none => M.throw notAuthenticated
  | some tok =>
    if tok = "" then M.throw notAuthenticated
    else do
      let contact ← Sherlock.getContactInformation
      M.ofExcept (requireCompleteContact (some contact))
      let offers ← Sherlock.getPurchaseOffers domain searchId (some contact)
      let purl ← M.ofExcept (jsAccess (some offers) "payment_request_url")
      let offersList ← M.ofExcept (jsAccess (some offers) "offers")
      let firstOffer ← M.ofExcept (jsAccess offersList "0")
      let offerId ← M.ofExcept (jsAccess firstOffer "id")
      let ctxTok ← M.ofExcept (jsAccess (some offers) "payment_context_token")
      Sherlock.getPaymentDetails purl offerId (some pm) ctxTok

/-- The methods of the `Sherlock` class that issue a remote request, in
source order (src/sherlock.ts:62-293). `handleResponse`, `setContact` and
`asTools` are the class's remaining members; they issue no request. -/
inductive ClientOp where
  | me
  | claimAccount
  | search
  | domains
  | updateNameservers
  | dnsRecords
  | createDns
  | updateDns
  | deleteDns
  | getContactInformation
  | setContactInformation
  | getPurchaseOffers
  | getX402PurchaseOffers
  | purchaseX402
  | purchaseDomain
  | getPaymentDetails
deriving DecidableEq, Repr

/-- The remote operations of the client, in source order. -/
def remoteOperations : List ClientOp :=
  [ClientOp.me, ClientOp.claimAccount, ClientOp.search, ClientOp.domains,
   ClientOp.updateNameservers, ClientOp.dnsRecords, ClientOp.createDns,
   ClientOp.updateDns, ClientOp.deleteDns, ClientOp.getContactInformation,
   ClientOp.setContactInformation, ClientOp.getPurchaseOffers,
   ClientOp.getX402PurchaseOffers, ClientOp.purchaseX402,
   ClientOp.purchaseDomain, ClientOp.getPaymentDetails]

/-- One declared parameter of a tool's zod schema: its name, zod type,
declared default value (if any) and `describe` annotation (if any). -/
structure ToolField where
  fname : String
  ftype : String
  fdefault : Option Val
  fdescribe : Option String

/-- One entry of the object returned by `asTools`
(src/sherlock.ts:295-443): the description string, the declared parameter
schema, the `Sherlock` method the `execute` function forwards to, and the
`execute` function itself, taking the single structured argument object. -/
structure ToolDecl where
  description : String
  parameters : List ToolField
  target : ClientOp
  execute : JsVal → M Val

/-- Rest-element of object destructuring (`{ a, ...params }`): the own
entries minus the extracted keys. -/
def restObj (v : Val) (excl : List String) : Val :=
  match v with
  | Val.obj kvs => Val.obj (kvs.filter fun p => decide (p.1 ∉ excl))
  | _ => Val.obj []

/-- The eight contact parameters of the `setContactInformation` schema. -/
def contactSchemaFields : List ToolField :=
  [⟨"first_name", "string", none, some "First name"⟩,
   ⟨"last_name", "string", none, some "Last name"⟩,
   ⟨"email", "string", none, some "Email address"⟩,
   ⟨"address", "string", none, some "Street address"⟩,
   ⟨"city", "string", none, some "City"⟩,
   ⟨"state", "string", none, some "Two-letter state code for US/Canada or province name"⟩,
   ⟨"postal_code", "string", none, some "Postal code"⟩,
   ⟨"country", "string", none, some "Two-letter country code"⟩]

/-- Embeds the mapping returned by `Sherlock.asTools`
(src/sherlock.ts:295-443), entries in source order. Each `execute`
destructures its argument object exactly as the source arrow function
does and forwards to the method recorded in `target`. -/
def Sherlock.asTools : List (String × ToolDecl) :=
  [("me",
    ⟨"Makes an authenticated request to verify the current authentication status and retrieve basic user details",
     [], ClientOp.me, fun _ => Sherlock.me⟩),
   ("setContactInformation",
    ⟨"Set the contact information that will be used for domain purchases and ICANN registration",
     contactSchemaFields, ClientOp.setContactInformation,
     fun contact => Sherlock.setContactInformation contact⟩),
   ("getContactInformation",
    ⟨"Get the contact information for the Sherlock user",
     [], ClientOp.getContactInformation, fun _ => Sherlock.getContactInformation⟩),
   ("searchDomains",
    ⟨"Search for domain names. Returns prices in USD cents.",
     [⟨"query", "string", none, some "The domain name to search for"⟩],
     ClientOp.search,
     fun args => do
       let a ← M.ofExcept (requireDestructurable args)
       Sherlock.search (jsField a "query")⟩),
   ("purchaseDomain",
    ⟨"Purchase a domain. This method won\x27t charge your account, it will return the payment information needed to complete the purchase",
     [⟨"searchId", "string", none, some "Search ID from a previous search request"⟩,
      ⟨"domain", "string", none, some "Domain name to purchase"⟩,
      ⟨"paymentMethod", "string", some (Val.str "credit_card"),
       some "Payment method to use \x7b\x27credit_card\x27, \x27lightning\x27\x7d"⟩],
     ClientOp.purchaseDomain,
     fun args => do
       let a ← M.ofExcept (requireDestructurable args)
       Sherlock.purchaseDomain (jsField a "searchId") (jsField a "domain")
         (some ((jsField a "paymentMethod").getD (Val.str "credit_card")))⟩),
   ("listDomains",
    ⟨"List domains owned by the authenticated user",
     [], ClientOp.domains, fun _ => Sherlock.domains⟩),
   ("getDnsRecords",
    ⟨"Get DNS records for a domain",
     [⟨"domainId", "string", none, some "The domain ID"⟩],
     ClientOp.dnsRecords,
     fun args => do
       let a ← M.ofExcept (requireDestructurable args)
       Sherlock.dnsRecords (jsField a "domainId")⟩),
   ("createDnsRecord",
    ⟨"Create a new DNS record",
     [⟨"domainId", "string", none, some "The domain ID"⟩,
      ⟨"type", "string", some (Val.str "TXT"), some "Record type"⟩,
      ⟨"name", "string", some (Val.str "test"), some "Record name"⟩,
      ⟨"value", "string", some (Val.str "test-1"), some "Record value"⟩,
      ⟨"ttl", "number", some (Val.num 3600), some "Time to live"⟩],
     ClientOp.createDns,
     fun args => do
       let a ← M.ofExcept (requireDestructurable args)
       Sherlock.createDns (jsField a "domainId") (some (restObj a ["domainId"]))⟩),
   ("updateDnsRecord",
    ⟨"Update an existing DNS record",
     [⟨"domainId", "string", none, some "The domain ID"⟩,
      ⟨"recordId", "string", none, some "The record ID"⟩,
      ⟨"type", "string", some (Val.str "TXT"), some "Record type"⟩,
      ⟨"name", "string", some (Val.str "test-2"), some "Record name"⟩,
      ⟨"value", "string", some (Val.str "test-2"), some "Record value"⟩,
      ⟨"ttl", "number", some (Val.num 3600), some "Time to live"⟩],
     ClientOp.updateDns,
     fun args => do
       let a ← M.ofExcept (requireDestructurable args)
       Sherlock.updateDns (jsField a "domainId") (jsField a "recordId")
         (some (restObj a ["domainId", "recordId"]))⟩),
   ("deleteDnsRecord",
    ⟨"Delete a DNS record",
     [⟨"domainId", "string", none, some "The domain ID"⟩,
      ⟨"recordId", "string", none, some "The record ID"⟩],
     ClientOp.deleteDns,
     fun args => do
       let a ← M.ofExcept (requireDestructurable args)
       Sherlock.deleteDns (jsField a "domainId") (jsField a "recordId")⟩),
   ("claimAccount",
    ⟨"Claim an account by sending an email link for authentication",
     [⟨"email", "string", none, none⟩],
     ClientOp.claimAccount,
     fun args => do
       let a ← M.ofExcept (requireDestructurable args)
       Sherlock.claimAccount (jsField a "email")⟩),
   ("updateNameservers",
    ⟨"Update the nameservers for a domain",
     [⟨"domainId", "string", none, none⟩,
      ⟨"nameservers", "array:string", none, none⟩],
     ClientOp.updateNameservers,
     fun args => do
       let a ← M.ofExcept (requireDestructurable args)
       Sherlock.updateNameservers (jsField a "domainId") (jsField a "nameservers")⟩),
   ("getX402PurchaseOffers",
    ⟨"Get X402 purchase offers for a domain. Returns payment requirements with a 402 status.",
     [⟨"domain", "string", none, none⟩,
      ⟨"searchId", "string", none, none⟩],
     ClientOp.getX402PurchaseOffers,
     fun args => do
       let a ← M.ofExcept (requireDestructurable args)
       Sherlock.getX402PurchaseOffers (jsField a "domain") (jsField a "searchId") none⟩),
   ("purchaseX402",
    ⟨"Complete an X402 domain purchase with a payment signature",
     [⟨"domain", "string", none, none⟩,
      ⟨"searchId", "string", none, none⟩,
      ⟨"paymentSignature", "string", none, none⟩],
     ClientOp.purchaseX402,
     fun args => do
       let a ← M.ofExcept (requireDestructurable args)
       Sherlock.purchaseX402 (jsField a "domain") (jsField a "searchId")
         (jsField a "paymentSignature") none⟩)]

/-- The `execute` function of the tool of a given name (total helper:
absent names give a function that throws). -/
def toolExecute (name : String) : JsVal → M Val :=
  match (Sherlock.asTools.find? fun p => p.1 == name) with
  | some p => p.2.execute
  | none => fun _ => M.throw (Val.str "no such tool")

/-- The declared default of a schema field of a tool (helper). -/
def toolFieldDefault (name field : String) : Option Val :=
  match (Sherlock.asTools.find? fun p => p.1 == name) with
  | some p =>
    match (p.2.parameters.find? fun f => f.fname == field) with
    | some f => f.fdefault
    | none => none
  | none => none

/-- A concrete fully-populated contact used by closed instances. -/
def sampleContact : Val :=
  Val.obj [("first_name", Val.str "Jane"), ("last_name", Val.str "Doe"),
           ("email", Val.str "jane@example.com"), ("address", Val.str "1 Main St"),
           ("city", Val.str "Springfield"), ("state", Val.str "IL"),
           ("postal_code", Val.str "62701"), ("country", Val.str "US")]

/-- A field value counts as missing or blank: absent (or `undefined`), or
a string that is empty after trimming. Stated from the specification's
words, for comparison with the behaviour of `requireCompleteContact`. -/
def fieldBlank : Option Val → Bool
  | none => true
  | some (Val.str s) => decide (jsTrim s = "")
  | some _ => false

/-- The value of a contact field is a string or missing (the typed
`Contact` shape; rules out the `TypeError` corner of `.trim()`). -/
def strOrMissing (o : Option Val) : Prop :=
  o = none ∨ ∃ s, o = some (Val.str s)

/-- A client computation leaves the instance state unchanged. -/
def preservesState {α : Type} (m : M α) : Prop :=
  ∀ st rs, (m st rs).state = st

/-- The contact-fetch request `purchaseDomain` issues first. -/
def contactInfoRequest (tok : String) : Request :=
  ⟨API_URL ++ "/api/v0/users/contact-information", "GET", [bearerHeader tok], none⟩

/-- The offer request of `getPurchaseOffers`. -/
def purchaseOfferRequest (tok : String) (domain searchId contactInfo : JsVal) : Request :=
  ⟨API_URL ++ "/api/v0/domains/purchase", "POST", [bearerHeader tok, contentTypeJson],
   some (Val.obj (jsonEntries
     [("domain", domain), ("contact_information", contactInfo), ("search_id", searchId)]))⟩

/-- The payment submission request of `getPaymentDetails`. -/
def paymentRequest (purl : String) (oid pm ctk : Val) : Request :=
  ⟨purl, "POST", [contentTypeJson],
   some (Val.obj [("offer_id", oid), ("payment_method", pm), ("payment_context_token", ctk)])⟩

theorem bind_eq_M_bind {α β : Type} (x : M α) (f : α → M β) : x >>= f = M.bind x f := rfl

theorem pure_eq_M_pure {α : Type} (a : α) : (pure a : M α) = M.pure a := rfl

/-- Last-binding-wins lookup through a cons cell. -/
theorem objGet_cons (k q : String) (v : Val) (kvs : List (String × Val)) :
    objGet ((k, v) :: kvs) q =
      (match objGet kvs q with
       | some w => some w
       | none => if k = q then some v else none) := by
  unfold objGet
  rw [List.reverse_cons, List.find?_append]
  cases h : List.find? (fun p => p.1 == q) kvs.reverse with
  | none =>
    by_cases hk : k = q
    · simp [h, hk, List.find?, Option.or]
    · have hb : (k == q) = false := by
        simpa using hk
      simp [h, hb, hk, List.find?, Option.or]
  | some w =>
    simp [h, Option.or]

/-- A binding already present later in the list shadows a fresh head. -/
theorem objGet_cons_of_some {kvs : List (String × Val)} {q : String} {w : Val}
    (h : objGet kvs q = some w) (k : String) (v : Val) :
    objGet ((k, v) :: kvs) q = some w := by
  rw [objGet_cons, h]

/-- A fresh head binding is found when the key is otherwise absent. -/
theorem objGet_cons_of_none {kvs : List (String × Val)} {q : String}
    (h : objGet kvs q = none) (v : Val) :
    objGet ((q, v) :: kvs) q = some v := by
  rw [objGet_cons, h]
  simp

/-- A contact accepted by `requireCompleteContact` is truthy. -/
theorem truthy_of_requireCompleteContact_ok {x : JsVal}
    (h : requireCompleteContact x = Except.ok ()) : truthyOpt x = true := by
  by_contra hny
  have hx : truthyOpt x = false := by
    cases hxx : truthyOpt x
    · rfl
    · exact absurd hxx hny
  simp only [requireCompleteContact, hx] at h
  simp at h

theorem preserves_pure {α : Type} (a : α) : preservesState (M.pure a) := fun _ _ => rfl

theorem preserves_throw {α : Type} (v : Val) : preservesState (M.throw v : M α) := fun _ _ => rfl

theorem preserves_getState : preservesState M.getState := fun _ _ => rfl

theorem preserves_ofExcept {α : Type} (e : Except Val α) : preservesState (M.ofExcept e) :=
  fun _ _ => rfl

theorem preserves_fetch (req : Request) : preservesState (M.fetch req) := by
  intro st rs
  cases rs <;> rfl

theorem preserves_bind {α β : Type} {x : M α} {f : α → M β}
    (hx : preservesState x) (hf : ∀ a, preservesState (f a)) :
    preservesState (x >>= f) := by
  intro st rs
  show (M.bind x f st rs).state = st
  unfold M.bind
  cases hres : (x st rs).result with
  | error e =>
    simp only [hres]
    exact hx st rs
  | ok a =>
    simp only [hres]
    rw [hf a _ _, hx st rs]

theorem preserves_withAuth {α : Type} {k : String → M α}
    (hk : ∀ tok, preservesState (k tok)) : preservesState (M.withAuth k) := by
  unfold M.withAuth
  apply preserves_bind preserves_getState
  intro s
  cases s.accessToken with
  | none => exact preserves_throw _
  | some tok =>
    by_cases h : tok = "" <;> simp [h]
    · exact preserves_throw _
    · exact hk tok

theorem preserves_handleResponse (r : Response) :
    preservesState (Sherlock.handleResponse r) := by
  intro st rs
  unfold Sherlock.handleResponse
  split
  · rfl
  · split <;> rfl

theorem preserves_me : preservesState Sherlock.me := by
  unfold Sherlock.me
  apply preserves_withAuth
  intro tok
  exact preserves_bind (preserves_fetch _) fun r => preserves_handleResponse r

theorem preserves_claimAccount (email : JsVal) :
    preservesState (Sherlock.claimAccount email) := by
  unfold Sherlock.claimAccount
  apply preserves_withAuth
  intro tok
  exact preserves_bind (preserves_fetch _) fun r => preserves_handleResponse r

theorem preserves_search (query : JsVal) : preservesState (Sherlock.search query) := by
  unfold Sherlock.search
  exact preserves_bind (preserves_fetch _) fun r => preserves_handleResponse r

theorem preserves_domains : preservesState Sherlock.domains := by
  unfold Sherlock.domains
  apply preserves_withAuth
  intro tok
  exact preserves_bind (preserves_fetch _) fun r => preserves_handleResponse r

theorem preserves_updateNameservers (domainId nameservers : JsVal) :
    preservesState (Sherlock.updateNameservers domainId nameservers) := by
  unfold Sherlock.updateNameservers
  apply preserves_withAuth
  intro tok
  exact preserves_bind (preserves_fetch _) fun r => preserves_handleResponse r

theorem preserves_dnsRecords (domainId : JsVal) :
    preservesState (Sherlock.dnsRecords domainId) := by
  unfold Sherlock.dnsRecords
  apply preserves_withAuth
  intro tok
  exact preserves_bind (preserves_fetch _) fun r => preserves_handleResponse r

theorem preserves_createDns (domainId params : JsVal) :
    preservesState (Sherlock.createDns domainId params) := by
  unfold Sherlock.createDns
  apply preserves_bind (preserves_ofExcept _)
  intro p
  apply preserves_withAuth
  intro tok
  exact preserves_bind (preserves_fetch _) fun r => preserves_handleResponse r

theorem preserves_updateDns (domainId recordId params : JsVal) :
    preservesState (Sherlock.updateDns domainId recordId params) := by
  unfold Sherlock.updateDns
  apply preserves_bind (preserves_ofExcept _)
  intro p
  apply preserves_withAuth
  intro tok
  exact preserves_bind (preserves_fetch _) fun r => preserves_handleResponse r

theorem preserves_deleteDns (domainId recordId : JsVal) :
    preservesState (Sherlock.deleteDns domainId recordId) := by
  unfold Sherlock.deleteDns
  apply preserves_withAuth
  intro tok
  exact preserves_bind (preserves_fetch _) fun r => preserves_handleResponse r

theorem preserves_getContactInformation :
    preservesState Sherlock.getContactInformation := by
  unfold Sherlock.getContactInformation
  apply preserves_withAuth
  intro tok
  exact preserves_bind (preserves_fetch _) fun r => preserves_handleResponse r

theorem preserves_setContactInformation (contact : JsVal) :
    preservesState (Sherlock.setContactInformation contact) := by
  unfold Sherlock.setContactInformation
  apply preserves_withAuth
  intro tok
  exact preserves_bind (preserves_fetch _) fun r => preserves_handleResponse r

theorem preserves_getPurchaseOffers (domain searchId contact : JsVal) :
    preservesState (Sherlock.getPurchaseOffers domain searchId contact) := by
  unfold Sherlock.getPurchaseOffers
  apply preserves_withAuth
  intro tok
  apply preserves_bind preserves_getState
  intro s
  apply preserves_bind (preserves_ofExcept _)
  intro u
  exact preserves_bind (preserves_fetch _) fun r => preserves_handleResponse r

theorem preserves_getX402PurchaseOffers (domain searchId contact : JsVal) :
    preservesState (Sherlock.getX402PurchaseOffers domain searchId contact) := by
  unfold Sherlock.getX402PurchaseOffers
  apply preserves_withAuth
  intro tok
  apply preserves_bind preserves_getState
  intro s
  apply preserves_bind (preserves_ofExcept _)
  intro u
  exact preserves_bind (preserves_fetch _) fun r => preserves_pure _

theorem preserves_purchaseX402 (domain searchId paymentSignature contact : JsVal) :
    preservesState (Sherlock.purchaseX402 domain searchId paymentSignature contact) := by
  unfold Sherlock.purchaseX402
  apply preserves_withAuth
  intro tok
  apply preserves_bind preserves_getState
  intro s
  apply preserves_bind (preserves_ofExcept _)
  intro u
  exact preserves_bind (preserves_fetch _) fun r => preserves_handleResponse r

theorem preserves_getPaymentDetails (purl oid pm ctk : JsVal) :
    preservesState (Sherlock.getPaymentDetails purl oid pm ctk) := by
  unfold Sherlock.getPaymentDetails
  exact preserves_bind (preserves_fetch _) fun r => preserves_handleResponse r

theorem preserves_purchaseDomain (searchId domain paymentMethod : JsVal) :
    preservesState (Sherlock.purchaseDomain searchId domain paymentMethod) := by
  unfold Sherlock.purchaseDomain
  apply preserves_bind preserves_getState
  intro s
  cases s.accessToken with
  | none => exact preserves_throw _
  | some tok =>
    by_cases h : tok = "" <;> simp [h]
    · exact preserves_throw _
    · apply preserves_bind preserves_getContactInformation
      intro contact
      apply preserves_bind (preserves_ofExcept _)
      intro u
      apply preserves_bind (preserves_getPurchaseOffers _ _ _)
      intro offers
      apply preserves_bind (preserves_ofExcept _)
      intro purl
      apply preserves_bind (preserves_ofExcept _)
      intro offersList
      apply preserves_bind (preserves_ofExcept _)
      intro firstOffer
      apply preserves_bind (preserves_ofExcept _)
      intro offerId
      apply preserves_bind (preserves_ofExcept _)
      intro ctxTok
      exact preserves_getPaymentDetails _ _ _ _

/-- C8: the access token is fixed at construction and unchanged by every
public operation for the instance's lifetime, and the cached contact field
is modified only by the explicit `setContact` setter, each call
overwriting the previous value: every method of the client leaves the
instance state exactly as it found it, and `setContact` replaces only the
contact field. -/
theorem state_frame :
    (∀ st rs, (Sherlock.me st rs).state = st)
    ∧ (∀ email st rs, (Sherlock.claimAccount email st rs).state = st)
    ∧ (∀ query st rs, (Sherlock.search query st rs).state = st)
    ∧ (∀ st rs, (Sherlock.domains st rs).state = st)
    ∧ (∀ d ns st rs, (Sherlock.updateNameservers d ns st rs).state = st)
    ∧ (∀ d st rs, (Sherlock.dnsRecords d st rs).state = st)
    ∧ (∀ d p st rs, (Sherlock.createDns d p st rs).state = st)
    ∧ (∀ d rid p st rs, (Sherlock.updateDns d rid p st rs).state = st)
    ∧ (∀ d rid st rs, (Sherlock.deleteDns d rid st rs).state = st)
    ∧ (∀ st rs, (Sherlock.getContactInformation st rs).state = st)
    ∧ (∀ c st rs, (Sherlock.setContactInformation c st rs).state = st)
    ∧ (∀ d sid c st rs, (Sherlock.getPurchaseOffers d sid c st rs).state = st)
    ∧ (∀ d sid c st rs, (Sherlock.getX402PurchaseOffers d sid c st rs).state = st)
    ∧ (∀ d sid sig c st rs, (Sherlock.purchaseX402 d sid sig c st rs).state = st)
    ∧ (∀ sid d pm st rs, (Sherlock.purchaseDomain sid d pm st rs).state = st)
    ∧ (∀ u oid pm ctk st rs, (Sherlock.getPaymentDetails u oid pm ctk st rs).state = st)
    ∧ (∀ st c, Sherlock.setContact st c = ⟨st.accessToken, c⟩) :=
  ⟨preserves_me,
   fun email => preserves_claimAccount email,
   fun query => preserves_search query,
   preserves_domains,
   fun d ns => preserves_updateNameservers d ns,
   fun d => preserves_dnsRecords d,
   fun d p => preserves_createDns d p,
   fun d rid p => preserves_updateDns d rid p,
   fun d rid => preserves_deleteDns d rid,
   preserves_getContactInformation,
   fun c => preserves_setContactInformation c,
   fun d sid c => preserves_getPurchaseOffers d sid c,
   fun d sid c => preserves_getX402PurchaseOffers d sid c,
   fun d sid sig c => preserves_purchaseX402 d sid sig c,
   fun sid d pm => preserves_purchaseDomain sid d pm,
   fun u oid pm ctk => preserves_getPaymentDetails u oid pm ctk,
   fun _ _ => rfl⟩

/-- C3: a call through `handleResponse` fails exactly when the status is
outside the 2xx range or the decoded body carries a truthy `error` field
(even under a 200 status); the thrown value is the decoded payload merged
over a `status` field holding the HTTP status; on success the decoded
body is returned unmodified. -/
theorem handleResponse_contract (r : Response) (st : Sherlock) (rs : List Response) :
    ((Sherlock.handleResponse r st rs).result.isOk = true
        ↔ (r.isOk = true ∧ dataHasError r.body = false))
    ∧ (∀ e, (Sherlock.handleResponse r st rs).result = Except.error e →
        e = Val.obj (("status", Val.num r.status) :: spreadEntries r.body))
    ∧ (∀ v, (Sherlock.handleResponse r st rs).result = Except.ok v → v = r.body) := by
  unfold Sherlock.handleResponse dataHasError
  by_cases h1 : r.isOk = false
  · simp [h1, M.throw, Except.isOk, Except.toBool]
  · have h1t : r.isOk = true := by
      cases h : r.isOk
      · exact absurd h h1
      · rfl
    by_cases h2 : (r.body.truthy && truthyOpt (jsField r.body "error")) = true
    · simp [h1t, h2, M.throw, Except.isOk, Except.toBool]
    · have h2f : (r.body.truthy && truthyOpt (jsField r.body "error")) = false := by
        cases h : (r.body.truthy && truthyOpt (jsField r.body "error"))
        · rfl
        · exact absurd h h2
      simp [h1t, h2f, M.pure, Except.isOk, Except.toBool]

/-- Closed instance of the response-handling contract: a 200 response
whose body embeds an `error` field is reported as a failure carrying the
status and the payload. -/
theorem handleResponse_contract_witness :
    Val.obj [("status", Val.num 200), ("error", Val.str "boom")]
      = Val.obj (("status", Val.num 200)
          :: spreadEntries (Val.obj [("error", Val.str "boom")])) :=
  (handleResponse_contract ⟨200, Val.obj [("error", Val.str "boom")]⟩ ⟨none, none⟩ []).2.1
    (Val.obj [("status", Val.num 200), ("error", Val.str "boom")]) rfl

/-- C4: every operation bearing the `if (!this.accessToken)` guard, when
invoked on a client constructed without a token, fails synchronously with
the string `Not authenticated`, leaves the state unchanged and issues no
request; `search` succeeds without a credential and its single request
carries no header at all (in particular no `Authorization`);
`getPaymentDetails` also succeeds without a credential. -/
theorem auth_gate :
    (∀ ct rs, Sherlock.me ⟨none, ct⟩ rs
        = ⟨Except.error notAuthenticated, ⟨none, ct⟩, rs, []⟩)
    ∧ (∀ email ct rs, Sherlock.claimAccount email ⟨none, ct⟩ rs
        = ⟨Except.error notAuthenticated, ⟨none, ct⟩, rs, []⟩)
    ∧ (∀ ct rs, Sherlock.domains ⟨none, ct⟩ rs
        = ⟨Except.error notAuthenticated, ⟨none, ct⟩, rs, []⟩)
    ∧ (∀ d ns ct rs, Sherlock.updateNameservers d ns ⟨none, ct⟩ rs
        = ⟨Except.error notAuthenticated, ⟨none, ct⟩, rs, []⟩)
    ∧ (∀ d ct rs, Sherlock.dnsRecords d ⟨none, ct⟩ rs
        = ⟨Except.error notAuthenticated, ⟨none, ct⟩, rs, []⟩)
    ∧ (∀ d pkvs ct rs, Sherlock.createDns d (some (Val.obj pkvs)) ⟨none, ct⟩ rs
        = ⟨Except.error notAuthenticated, ⟨none, ct⟩, rs, []⟩)
    ∧ (∀ d rid pkvs ct rs, Sherlock.updateDns d rid (some (Val.obj pkvs)) ⟨none, ct⟩ rs
        = ⟨Except.error notAuthenticated, ⟨none, ct⟩, rs, []⟩)
    ∧ (∀ d rid ct rs, Sherlock.deleteDns d rid ⟨none, ct⟩ rs
        = ⟨Except.error notAuthenticated, ⟨none, ct⟩, rs, []⟩)
    ∧ (∀ ct rs, Sherlock.getContactInformation ⟨none, ct⟩ rs
        = ⟨Except.error notAuthenticated, ⟨none, ct⟩, rs, []⟩)
    ∧ (∀ c ct rs, Sherlock.setContactInformation c ⟨none, ct⟩ rs
        = ⟨Except.error notAuthenticated, ⟨none, ct⟩, rs, []⟩)
    ∧ (∀ d sid c ct rs, Sherlock.getPurchaseOffers d sid c ⟨none, ct⟩ rs
        = ⟨Except.error notAuthenticated, ⟨none, ct⟩, rs, []⟩)
    ∧ (∀ d sid c ct rs, Sherlock.getX402PurchaseOffers d sid c ⟨none, ct⟩ rs
        = ⟨Except.error notAuthenticated, ⟨none, ct⟩, rs, []⟩)
    ∧ (∀ d sid sig c ct rs, Sherlock.purchaseX402 d sid sig c ⟨none, ct⟩ rs
        = ⟨Except.error notAuthenticated, ⟨none, ct⟩, rs, []⟩)
    ∧ (∀ sid d pm ct rs, Sherlock.purchaseDomain sid d pm ⟨none, ct⟩ rs
        = ⟨Except.error notAuthenticated, ⟨none, ct⟩, rs, []⟩)
    ∧ (∀ q ct r rest, r.isOk = true → dataHasError r.body = false →
        Sherlock.search q ⟨none, ct⟩ (r :: rest)
          = ⟨Except.ok r.body, ⟨none, ct⟩, rest,
             [⟨API_URL ++ "/api/v0/domains/search?"
                 ++ ("query=" ++ formEncode (jsToString q)), "GET", [], none⟩]⟩)
    ∧ (∀ u oid pm ctk ct r rest, r.isOk = true → dataHasError r.body = false →
        Sherlock.getPaymentDetails u oid pm ctk ⟨none, ct⟩ (r :: rest)
          = ⟨Except.ok r.body, ⟨none, ct⟩, rest,
             [⟨jsToString u, "POST", [contentTypeJson],
               some (Val.obj (jsonEntries
                 [("offer_id", oid), ("payment_method", pm),
                  ("payment_context_token", ctk)]))⟩]⟩) := by
  refine ⟨fun ct rs => rfl, fun email ct rs => rfl, fun ct rs => rfl,
    fun d ns ct rs => rfl, fun d ct rs => rfl, fun d pkvs ct rs => rfl,
    fun d rid pkvs ct rs => rfl, fun d rid ct rs => rfl, fun ct rs => rfl,
    fun c ct rs => rfl, fun d sid c ct rs => rfl, fun d sid c ct rs => rfl,
    fun d sid sig c ct rs => rfl, fun sid d pm ct rs => rfl, ?_, ?_⟩
  · intro q ct r rest hro hre
    unfold Sherlock.search
    simp only [bind_eq_M_bind, M.bind, M.fetch]
    unfold Sherlock.handleResponse
    simp [hro, hre, M.pure]
  · intro u oid pm ctk ct r rest hro hre
    unfold Sherlock.getPaymentDetails
    simp only [bind_eq_M_bind, M.bind, M.fetch]
    unfold Sherlock.handleResponse
    simp [hro, hre, M.pure]

/-- Closed instance of the authentication gate: a credential-less client
running `search` for a concrete query against one mocked response. -/
theorem auth_gate_witness :
    Sherlock.search (some (Val.str "example.com")) ⟨none, none⟩ [⟨200, Val.str "ok"⟩]
      = ⟨Except.ok (Val.str "ok"), ⟨none, none⟩, [],
         [⟨API_URL ++ "/api/v0/domains/search?"
             ++ ("query=" ++ formEncode (jsToString (some (Val.str "example.com")))),
           "GET", [], none⟩]⟩ :=
  auth_gate.2.2.2.2.2.2.2.2.2.2.2.2.2.2.1
    (some (Val.str "example.com")) none ⟨200, Val.str "ok"⟩ [] rfl rfl

/-- Refutation of the universal form of the forced-402 claim: when the
decoded body itself carries a `status` field, the spread
`{ status: 402, ...data }` lets the body's value shadow the forced 402.
Concrete run: token present, complete explicit contact, HTTP 200 with
body `{"status": 7}`; the returned object's `status` reads 7, not 402. -/
theorem x402_status_override_cex :
    (Sherlock.getX402PurchaseOffers (some (Val.str "example.com")) (some (Val.str "s1"))
        (some sampleContact) ⟨some "tok", none⟩
        [⟨200, Val.obj [("status", Val.num 7)]⟩]).result
      = Except.ok (Val.obj [("status", Val.num 402), ("status", Val.num 7)])
    ∧ jsField (Val.obj [("status", Val.num 402), ("status", Val.num 7)]) "status"
        = some (Val.num 7)
    ∧ ¬ jsField (Val.obj [("status", Val.num 402), ("status", Val.num 7)]) "status"
        = some (Val.num 402) := by
  refine ⟨rfl, rfl, ?_⟩
  intro h
  rw [show jsField (Val.obj [("status", Val.num 402), ("status", Val.num 7)]) "status"
      = some (Val.num 7) from rfl] at h
  injection h with h1
  injection h1 with h2
  omega

/-- C5 (amended): for every call of `getX402PurchaseOffers` with a
credential and a complete effective contact, and every response whose
decoded object body carries no `status` field of its own, the operation
resolves with `status` forced to 402, regardless of the HTTP status of
the response. -/
theorem x402_forces_status_402
    (tok : String) (htok : ¬ tok = "") (cached contact domain searchId : JsVal)
    (hcomplete : requireCompleteContact (jsOr contact cached) = Except.ok ())
    (status : Nat) (kvs : List (String × Val)) (hnostatus : objGet kvs "status" = none)
    (rest : List Response) :
    (Sherlock.getX402PurchaseOffers domain searchId contact ⟨some tok, cached⟩
        (⟨status, Val.obj kvs⟩ :: rest)).result
      = Except.ok (Val.obj (("status", Val.num 402) :: kvs))
    ∧ jsField (Val.obj (("status", Val.num 402) :: kvs)) "status"
        = some (Val.num 402) := by
  constructor
  · unfold Sherlock.getX402PurchaseOffers M.withAuth
    simp [bind_eq_M_bind, M.bind, M.getState, M.ofExcept, M.fetch, M.throw, M.pure,
      htok, hcomplete, spreadEntries]
  · show objGet (("status", Val.num 402) :: kvs) "status" = some (Val.num 402)
    exact objGet_cons_of_none hnostatus _

/-- Closed instance of the amended forced-402 property at a 500 response. -/
theorem x402_forces_status_402_witness :
    (Sherlock.getX402PurchaseOffers (some (Val.str "example.com")) (some (Val.str "s1"))
        (some sampleContact) ⟨some "tok", none⟩
        [⟨500, Val.obj [("offers", Val.arr [])]⟩]).result
      = Except.ok (Val.obj [("status", Val.num 402), ("offers", Val.arr [])])
    ∧ jsField (Val.obj [("status", Val.num 402), ("offers", Val.arr [])]) "status"
        = some (Val.num 402) :=
  x402_forces_status_402 "tok" (by simp) none (some sampleContact)
    (some (Val.str "example.com")) (some (Val.str "s1")) rfl
    500 [("offers", Val.arr [])] rfl []

/-- C9: with a credential and a complete effective contact,
`getX402PurchaseOffers` resolves successfully on every response whose
body decodes, whatever the HTTP status and whether or not the body
carries an `error` field — it bypasses `handleResponse` — and a `status`
field present in the body shadows the forced 402 in the returned object,
because the body is spread after the `status: 402` entry. -/
theorem x402_never_rejects
    (tok : String) (htok : ¬ tok = "") (cached contact domain searchId : JsVal)
    (hcomplete : requireCompleteContact (jsOr contact cached) = Except.ok ())
    (r : Response) (rest : List Response) :
    ((Sherlock.getX402PurchaseOffers domain searchId contact ⟨some tok, cached⟩
        (r :: rest)).result
      = Except.ok (Val.obj (("status", Val.num 402) :: spreadEntries r.body)))
    ∧ (∀ kvs v, r.body = Val.obj kvs → objGet kvs "status" = some v →
        jsField (Val.obj (("status", Val.num 402) :: spreadEntries r.body)) "status"
          = some v) := by
  constructor
  · unfold Sherlock.getX402PurchaseOffers M.withAuth
    simp [bind_eq_M_bind, M.bind, M.getState, M.ofExcept, M.fetch, M.throw, M.pure,
      htok, hcomplete]
  · intro kvs v hbody hstat
    rw [hbody]
    show objGet (("status", Val.num 402) :: spreadEntries (Val.obj kvs)) "status" = some v
    rw [show spreadEntries (Val.obj kvs) = kvs from rfl]
    exact objGet_cons_of_some hstat _ _

/-- Closed instance: a 500 response with an embedded `error` field still
resolves, and a body `status` of 7 shadows the forced 402. -/
theorem x402_never_rejects_witness :
    ((Sherlock.getX402PurchaseOffers (some (Val.str "d")) (some (Val.str "s"))
        (some sampleContact) ⟨some "tok", none⟩
        [⟨500, Val.obj [("error", Val.str "boom"), ("status", Val.num 7)]⟩]).result
      = Except.ok (Val.obj [("status", Val.num 402), ("error", Val.str "boom"),
          ("status", Val.num 7)]))
    ∧ jsField (Val.obj [("status", Val.num 402), ("error", Val.str "boom"),
        ("status", Val.num 7)]) "status" = some (Val.num 7) := by
  have h := x402_never_rejects "tok" (by simp) none (some sampleContact)
    (some (Val.str "d")) (some (Val.str "s")) rfl
    ⟨500, Val.obj [("error", Val.str "boom"), ("status", Val.num 7)]⟩ []
  exact ⟨h.1, h.2 [("error", Val.str "boom"), ("status", Val.num 7)] (Val.num 7) rfl rfl⟩

/-- C10: `purchaseDomain` reads `offers.offers[0].id` with no emptiness or
presence guard: when the offer response's `offers` list is absent the
indexing throws the `TypeError` for reading `0` of `undefined`, and when
it is empty the member read throws the `TypeError` for reading `id` of
`undefined`; either way the composite purchase fails with that raw
`TypeError` - not with any structured error of the library - after the
contact fetch and the offer request but before any payment request. -/
theorem purchaseDomain_offers_unguarded
    (tok : String) (htok : ¬ tok = "") (cached sid dom pm : JsVal)
    (c : Val) (hc : requireCompleteContact (some c) = Except.ok ())
    (s1 : Nat) (h1 : Response.isOk ⟨s1, c⟩ = true) (hce : dataHasError c = false)
    (s2 : Nat) (bOff : List (String × Val))
    (h2 : Response.isOk ⟨s2, Val.obj bOff⟩ = true)
    (hb2 : dataHasError (Val.obj bOff) = false)
    (more : List Response) :
    (objGet bOff "offers" = none →
      Sherlock.purchaseDomain sid dom pm ⟨some tok, cached⟩
          (⟨s1, c⟩ :: ⟨s2, Val.obj bOff⟩ :: more)
        = ⟨Except.error (typeErrorRead "undefined" "0"), ⟨some tok, cached⟩, more,
           [contactInfoRequest tok, purchaseOfferRequest tok dom sid (some c)]⟩)
    ∧ (objGet bOff "offers" = some (Val.arr []) →
      Sherlock.purchaseDomain sid dom pm ⟨some tok, cached⟩
          (⟨s1, c⟩ :: ⟨s2, Val.obj bOff⟩ :: more)
        = ⟨Except.error (typeErrorRead "undefined" "id"), ⟨some tok, cached⟩, more,
           [contactInfoRequest tok, purchaseOfferRequest tok dom sid (some c)]⟩) := by
  have hct := truthy_of_requireCompleteContact_ok hc
  have hs : strToNat? "0" = some 0 := rfl
  constructor
  · intro hno
    unfold Sherlock.purchaseDomain Sherlock.getContactInformation
      Sherlock.getPurchaseOffers M.withAuth Sherlock.handleResponse
    simp [bind_eq_M_bind, M.bind, M.getState, M.ofExcept, M.fetch, M.throw, M.pure,
      htok, h1, h2, hce, hb2, hc, hct, jsOr, jsAccess, jsField, hno,
      contactInfoRequest, purchaseOfferRequest]
  · intro hempty
    unfold Sherlock.purchaseDomain Sherlock.getContactInformation
      Sherlock.getPurchaseOffers M.withAuth Sherlock.handleResponse
    simp [bind_eq_M_bind, M.bind, M.getState, M.ofExcept, M.fetch, M.throw, M.pure,
      htok, h1, h2, hce, hb2, hc, hct, jsOr, jsAccess, jsField, hempty, hs,
      contactInfoRequest, purchaseOfferRequest]

/-- Closed instances of the unguarded first-offer access: a response with
no `offers` key, then one with an empty `offers` array. -/
theorem purchaseDomain_offers_unguarded_witness :
    (Sherlock.purchaseDomain (some (Val.str "s1")) (some (Val.str "example.com")) none
        ⟨some "tok", none⟩
        [⟨200, sampleContact⟩, ⟨200, Val.obj [("payment_request_url", Val.str "u")]⟩]
      = ⟨Except.error (typeErrorRead "undefined" "0"), ⟨some "tok", none⟩, [],
         [contactInfoRequest "tok",
          purchaseOfferRequest "tok" (some (Val.str "example.com")) (some (Val.str "s1"))
            (some sampleContact)]⟩)
    ∧ (Sherlock.purchaseDomain (some (Val.str "s1")) (some (Val.str "example.com")) none
        ⟨some "tok", none⟩
        [⟨200, sampleContact⟩, ⟨200, Val.obj [("offers", Val.arr [])]⟩]
      = ⟨Except.error (typeErrorRead "undefined" "id"), ⟨some "tok", none⟩, [],
         [contactInfoRequest "tok",
          purchaseOfferRequest "tok" (some (Val.str "example.com")) (some (Val.str "s1"))
            (some sampleContact)]⟩) :=
  ⟨(purchaseDomain_offers_unguarded "tok" (by decide) none (some (Val.str "s1"))
      (some (Val.str "example.com")) none sampleContact rfl 200 rfl rfl 200
      [("payment_request_url", Val.str "u")] rfl rfl []).1 rfl,
   (purchaseDomain_offers_unguarded "tok" (by decide) none (some (Val.str "s1"))
      (some (Val.str "example.com")) none sampleContact rfl 200 rfl rfl 200
      [("offers", Val.arr [])] rfl rfl []).2 rfl⟩

/-- C1: with a credential and a stored contact that is complete, the
composite purchase performs, in order: the contact fetch, the offer
request whose body carries the fetched contact, and a payment submission
posted to the offer response's `payment_request_url` carrying the id of
the FIRST offer of the list (whatever follows it), the payment method and
the `payment_context_token`; the value returned is exactly the decoded
body of the payment endpoint. -/
theorem purchaseDomain_flow
    (tok : String) (htok : ¬ tok = "") (cached sid dom : JsVal) (pm : Val)
    (c : Val) (hc : requireCompleteContact (some c) = Except.ok ())
    (s1 : Nat) (h1 : Response.isOk ⟨s1, c⟩ = true) (hce : dataHasError c = false)
    (s2 : Nat) (bOff : List (String × Val))
    (h2 : Response.isOk ⟨s2, Val.obj bOff⟩ = true)
    (hb2 : dataHasError (Val.obj bOff) = false)
    (purl : String) (hpurl : objGet bOff "payment_request_url" = some (Val.str purl))
    (o0 : List (String × Val)) (restOffers : List Val)
    (hoffers : objGet bOff "offers" = some (Val.arr (Val.obj o0 :: restOffers)))
    (oid : Val) (hoid : objGet o0 "id" = some oid)
    (ctk : Val) (hctk : objGet bOff "payment_context_token" = some ctk)
    (s3 : Nat) (b3 : Val) (h3 : Response.isOk ⟨s3, b3⟩ = true)
    (hb3 : dataHasError b3 = false) :
    Sherlock.purchaseDomain sid dom (some pm) ⟨some tok, cached⟩
        [⟨s1, c⟩, ⟨s2, Val.obj bOff⟩, ⟨s3, b3⟩]
      = ⟨Except.ok b3, ⟨some tok, cached⟩, [],
         [contactInfoRequest tok,
          purchaseOfferRequest tok dom sid (some c),
          paymentRequest purl oid pm ctk]⟩ := by
  have hct := truthy_of_requireCompleteContact_ok hc
  have hs : strToNat? "0" = some 0 := rfl
  unfold Sherlock.purchaseDomain Sherlock.getContactInformation
    Sherlock.getPurchaseOffers Sherlock.getPaymentDetails M.withAuth
    Sherlock.handleResponse
  simp [bind_eq_M_bind, M.bind, M.getState, M.ofExcept, M.fetch, M.throw, M.pure,
    htok, h1, h2, h3, hce, hb2, hb3, hc, hct, jsOr, jsAccess, jsField,
    hpurl, hoffers, hoid, hctk, hs, jsToString, jsToStringV, jsonEntries,
    contactInfoRequest, purchaseOfferRequest, paymentRequest]

/-- Closed instance of the composite purchase flow at concrete data. -/
theorem purchaseDomain_flow_witness :
    Sherlock.purchaseDomain (some (Val.str "s1")) (some (Val.str "example.com"))
        (some (Val.str "lightning")) ⟨some "tok", none⟩
        [⟨200, sampleContact⟩,
         ⟨200, Val.obj
           [("payment_request_url", Val.str "https://pay.example/x"),
            ("payment_context_token", Val.str "ctx1"),
            ("offers", Val.arr [Val.obj [("id", Val.str "off1")],
                                Val.obj [("id", Val.str "off2")]])]⟩,
         ⟨200, Val.obj [("payment", Val.str "details")]⟩]
      = ⟨Except.ok (Val.obj [("payment", Val.str "details")]), ⟨some "tok", none⟩, [],
         [contactInfoRequest "tok",
          purchaseOfferRequest "tok" (some (Val.str "example.com")) (some (Val.str "s1"))
            (some sampleContact),
          paymentRequest "https://pay.example/x" (Val.str "off1") (Val.str "lightning")
            (Val.str "ctx1")]⟩ :=
  purchaseDomain_flow "tok" (by decide) none (some (Val.str "s1"))
    (some (Val.str "example.com")) (Val.str "lightning") sampleContact rfl
    200 rfl rfl 200
    [("payment_request_url", Val.str "https://pay.example/x"),
     ("payment_context_token", Val.str "ctx1"),
     ("offers", Val.arr [Val.obj [("id", Val.str "off1")],
                         Val.obj [("id", Val.str "off2")]])]
    rfl rfl "https://pay.example/x" rfl
    [("id", Val.str "off1")] [Val.obj [("id", Val.str "off2")]] rfl
    (Val.str "off1") rfl (Val.str "ctx1") rfl
    200 (Val.obj [("payment", Val.str "details")]) rfl rfl

/-- The filter callback agrees with the missing-or-blank predicate on
fields that are strings or missing (no `TypeError` possible). -/
theorem fieldMissingStep_eq {c : Val} {f : String} (h : strOrMissing (jsField c f)) :
    fieldMissingStep c f = Except.ok (fieldBlank (jsField c f)) := by
  rcases h with h | ⟨s, h⟩
  · unfold fieldMissingStep fieldBlank
    rw [h]
  · unfold fieldMissingStep fieldBlank
    rw [h]
    by_cases hs : s = ""
    · subst hs
      rfl
    · simp [Val.truthy, hs]

/-- The exception-threading filter of `requireCompleteContact` computes a
plain order-preserving filter as long as every field is a string or
missing. -/
theorem filterMissingFields_eq (c : Val) (fs : List String)
    (h : ∀ f ∈ fs, strOrMissing (jsField c f)) :
    filterMissingFields c fs
      = Except.ok (fs.filter fun f => fieldBlank (jsField c f)) := by
  induction fs with
  | nil => rfl
  | cons f fs ih =>
    have hf := h f (by simp)
    have hrest : ∀ g ∈ fs, strOrMissing (jsField c g) := fun g hg => h g (by simp [hg])
    unfold filterMissingFields
    rw [List.filter_cons]
    simp only [bind, Except.bind, fieldMissingStep_eq hf, ih hrest]

/-- `requireCompleteContact`, on an object whose required fields are
strings or missing, succeeds exactly when no field is missing or blank,
and otherwise throws the structured error over the order-preserving
filter of the declared field list. -/
theorem requireCompleteContact_eq (kvs : List (String × Val))
    (h : ∀ f ∈ requiredFields, strOrMissing (objGet kvs f)) :
    requireCompleteContact (some (Val.obj kvs))
      = (if (requiredFields.filter fun f => fieldBlank (objGet kvs f)) = []
         then Except.ok ()
         else Except.error (incompleteContactError
           (requiredFields.filter fun f => fieldBlank (objGet kvs f)))) := by
  have hfm := filterMissingFields_eq (Val.obj kvs) requiredFields h
  have hjf : ∀ a, jsField (Val.obj kvs) a = objGet kvs a := fun a => rfl
  unfold requireCompleteContact
  simp only [truthyOpt, Val.truthy, bind, Except.bind, hfm, hjf]
  cases hm : requiredFields.filter fun f => fieldBlank (objGet kvs f) with
  | nil => simp
  | cons g gs => simp

/-- `handleResponse` issues no request. -/
theorem handleResponse_trace (r : Response) (st : Sherlock) (rs : List Response) :
    (Sherlock.handleResponse r st rs).trace = [] := by
  unfold Sherlock.handleResponse
  split
  · rfl
  · split <;> rfl

/-- Refutation of the claim's coverage of `purchaseDomain`: with a
complete contact cached on the instance, `purchaseDomain` still issues
the contact-fetch network request first and then fails with the
missing-field error of the remotely fetched contact - so its effective
contact is not the cached one, and the completeness check does not run
before every network request of the purchase path. -/
theorem contact_gate_cex :
    (Sherlock.purchaseDomain (some (Val.str "s1")) (some (Val.str "example.com")) none
        ⟨some "tok", some sampleContact⟩
        [⟨200, Val.obj [("first_name", Val.str "Jane"), ("last_name", Val.str "Doe"),
           ("email", Val.str "jane@example.com"), ("address", Val.str "1 Main St"),
           ("city", Val.str "Springfield"), ("state", Val.str "IL"),
           ("postal_code", Val.str "62701")]⟩]).result
      = Except.error (incompleteContactError ["country"])
    ∧ (Sherlock.purchaseDomain (some (Val.str "s1")) (some (Val.str "example.com")) none
        ⟨some "tok", some sampleContact⟩
        [⟨200, Val.obj [("first_name", Val.str "Jane"), ("last_name", Val.str "Doe"),
           ("email", Val.str "jane@example.com"), ("address", Val.str "1 Main St"),
           ("city", Val.str "Springfield"), ("state", Val.str "IL"),
           ("postal_code", Val.str "62701")]⟩]).trace
      = [contactInfoRequest "tok"]
    ∧ requireCompleteContact (some sampleContact) = Except.ok ()
    ∧ ([contactInfoRequest "tok"] : List Request) ≠ [] := by
  refine ⟨rfl, rfl, rfl, ?_⟩
  simp

/-- C2 (amended): for the three offer operations `getPurchaseOffers`,
`getX402PurchaseOffers` and `purchaseX402`, the effective contact is the
explicit argument when truthy, else the cached instance contact; on an
object contact whose required fields are strings or missing, the check
succeeds exactly when all eight required fields are present and non-empty
after trimming, and otherwise produces the structured error listing
exactly the missing or blank fields in declared field order with `is` for
one and `are` for several; when the check fails these three operations
rethrow that error with no network request issued, and when it succeeds
the offer request is issued. `purchaseDomain`, by contrast, issues the
contact-fetch request first and applies the same check to the fetched
contact before any purchase-path request. -/
theorem contact_validation_gate :
    (∀ kvs, (∀ f ∈ requiredFields, strOrMissing (objGet kvs f)) →
      requireCompleteContact (some (Val.obj kvs))
        = (if (requiredFields.filter fun f => fieldBlank (objGet kvs f)) = []
           then Except.ok ()
           else Except.error (Val.obj
             [("error", Val.str ("Incomplete contact information: "
                 ++ joinComma (requiredFields.filter fun f => fieldBlank (objGet kvs f))
                 ++ " "
                 ++ (if (requiredFields.filter fun f =>
                       fieldBlank (objGet kvs f)).length == 1 then "is" else "are")
                 ++ " required and cannot be empty")),
              ("missingFields", Val.arr ((requiredFields.filter fun f =>
                 fieldBlank (objGet kvs f)).map Val.str))])))
    ∧ (∀ v cached, Val.truthy v = true → jsOr (some v) cached = some v)
    ∧ (∀ cached, jsOr none cached = cached)
    ∧ (∀ tok cached contact dom sid rs e, ¬ tok = "" →
        requireCompleteContact (jsOr contact cached) = Except.error e →
        Sherlock.getPurchaseOffers dom sid contact ⟨some tok, cached⟩ rs
          = ⟨Except.error e, ⟨some tok, cached⟩, rs, []⟩)
    ∧ (∀ tok cached contact dom sid rs e, ¬ tok = "" →
        requireCompleteContact (jsOr contact cached) = Except.error e →
        Sherlock.getX402PurchaseOffers dom sid contact ⟨some tok, cached⟩ rs
          = ⟨Except.error e, ⟨some tok, cached⟩, rs, []⟩)
    ∧ (∀ tok cached contact dom sid sig rs e, ¬ tok = "" →
        requireCompleteContact (jsOr contact cached) = Except.error e →
        Sherlock.purchaseX402 dom sid sig contact ⟨some tok, cached⟩ rs
          = ⟨Except.error e, ⟨some tok, cached⟩, rs, []⟩)
    ∧ (∀ tok cached contact dom sid rs, ¬ tok = "" →
        requireCompleteContact (jsOr contact cached) = Except.ok () →
        (Sherlock.getPurchaseOffers dom sid contact ⟨some tok, cached⟩ rs).trace
          = [purchaseOfferRequest tok dom sid (jsOr contact cached)])
    ∧ (∀ tok cached sid dom pm s1 c more e, ¬ tok = "" →
        Response.isOk ⟨s1, c⟩ = true → dataHasError c = false →
        requireCompleteContact (some c) = Except.error e →
        Sherlock.purchaseDomain sid dom pm ⟨some tok, cached⟩ (⟨s1, c⟩ :: more)
          = ⟨Except.error e, ⟨some tok, cached⟩, more, [contactInfoRequest tok]⟩) := by
  refine ⟨?_, ?_, ?_, ?_, ?_, ?_, ?_, ?_⟩
  · intro kvs h
    rw [requireCompleteContact_eq kvs h]
    rfl
  · intro v cached hv
    simp [jsOr, truthyOpt, hv]
  · intro cached
    simp [jsOr, truthyOpt]
  · intro tok cached contact dom sid rs e htok herr
    unfold Sherlock.getPurchaseOffers M.withAuth
    simp [bind_eq_M_bind, M.bind, M.getState, M.ofExcept, M.throw, htok, herr]
  · intro tok cached contact dom sid rs e htok herr
    unfold Sherlock.getX402PurchaseOffers M.withAuth
    simp [bind_eq_M_bind, M.bind, M.getState, M.ofExcept, M.throw, htok, herr]
  · intro tok cached contact dom sid sig rs e htok herr
    unfold Sherlock.purchaseX402 M.withAuth
    simp [bind_eq_M_bind, M.bind, M.getState, M.ofExcept, M.throw, htok, herr]
  · intro tok cached contact dom sid rs htok hok
    unfold Sherlock.getPurchaseOffers M.withAuth
    cases rs with
    | nil =>
      simp [bind_eq_M_bind, M.bind, M.getState, M.ofExcept, M.fetch, M.throw, htok, hok,
        purchaseOfferRequest]
    | cons r rest =>
      simp [bind_eq_M_bind, M.bind, M.getState, M.ofExcept, M.fetch, M.throw, htok, hok,
        handleResponse_trace, purchaseOfferRequest]
  · intro tok cached sid dom pm s1 c more e htok h1 hce herr
    unfold Sherlock.purchaseDomain Sherlock.getContactInformation M.withAuth
      Sherlock.handleResponse
    simp [bind_eq_M_bind, M.bind, M.getState, M.ofExcept, M.fetch, M.throw, M.pure,
      htok, h1, hce, herr, contactInfoRequest]

/-- Closed instance of the amended contact gate: one blank field
(`state`, holding whitespace) and one missing field (`country`) yield the
plural message over exactly those two fields in order, rethrown by
`getPurchaseOffers` with no request issued. -/
theorem contact_validation_gate_witness :
    requireCompleteContact (some (Val.obj
        [("first_name", Val.str "Jane"), ("last_name", Val.str "Doe"),
         ("email", Val.str "jane@example.com"), ("address", Val.str "1 Main St"),
         ("city", Val.str "Springfield"), ("state", Val.str "   "),
         ("postal_code", Val.str "62701")]))
      = Except.error (Val.obj
          [("error", Val.str "Incomplete contact information: state, country are required and cannot be empty"),
           ("missingFields", Val.arr [Val.str "state", Val.str "country"])])
    ∧ Sherlock.getPurchaseOffers (some (Val.str "d")) (some (Val.str "s"))
        (some (Val.obj
          [("first_name", Val.str "Jane"), ("last_name", Val.str "Doe"),
           ("email", Val.str "jane@example.com"), ("address", Val.str "1 Main St"),
           ("city", Val.str "Springfield"), ("state", Val.str "   "),
           ("postal_code", Val.str "62701")]))
        ⟨some "tok", none⟩ []
      = ⟨Except.error (Val.obj
          [("error", Val.str "Incomplete contact information: state, country are required and cannot be empty"),
           ("missingFields", Val.arr [Val.str "state", Val.str "country"])]),
         ⟨some "tok", none⟩, [], []⟩ := by
  constructor
  · have h := contact_validation_gate.1
      [("first_name", Val.str "Jane"), ("last_name", Val.str "Doe"),
       ("email", Val.str "jane@example.com"), ("address", Val.str "1 Main St"),
       ("city", Val.str "Springfield"), ("state", Val.str "   "),
       ("postal_code", Val.str "62701")]
      (by
        intro f hf
        fin_cases hf <;> first
          | exact Or.inl rfl
          | exact Or.inr ⟨_, rfl⟩)
    rw [h]
    rfl
  · exact contact_validation_gate.2.2.2.1 "tok" none
      (some (Val.obj
        [("first_name", Val.str "Jane"), ("last_name", Val.str "Doe"),
         ("email", Val.str "jane@example.com"), ("address", Val.str "1 Main St"),
         ("city", Val.str "Springfield"), ("state", Val.str "   "),
         ("postal_code", Val.str "62701")]))
      (some (Val.str "d")) (some (Val.str "s")) [] _ (by decide) rfl

/-- C7: for EVERY record descriptor object, each of the four fields of
the request body built by `createDns` / `updateDns` is the caller's value
when the property is supplied and the documented default when it is not
(`TXT`/`test`/`test-1`/3600 for creation, `TXT`/`test-2`/`test-2`/3600
for update), and the `createDnsRecord` / `updateDnsRecord` tool schemas
declare default values exactly equal to those defaults. -/
theorem dns_defaults :
    (∀ tok d (kvs : List (String × Val)) ct rs, ¬ tok = "" →
      (Sherlock.createDns d (some (Val.obj kvs)) ⟨some tok, ct⟩ rs).trace
        = [⟨API_URL ++ "/api/v0/domains/" ++ jsToString d ++ "/dns/records", "POST",
            [bearerHeader tok, contentTypeJson],
            some (Val.obj [("records", Val.arr [Val.obj
              [("type", (objGet kvs "type").getD (Val.str "TXT")),
               ("name", (objGet kvs "name").getD (Val.str "test")),
               ("value", (objGet kvs "value").getD (Val.str "test-1")),
               ("ttl", (objGet kvs "ttl").getD (Val.num 3600))]])])⟩])
    ∧ (∀ tok d rid (kvs : List (String × Val)) ct rs, ¬ tok = "" →
      (Sherlock.updateDns d (some rid) (some (Val.obj kvs)) ⟨some tok, ct⟩ rs).trace
        = [⟨API_URL ++ "/api/v0/domains/" ++ jsToString d ++ "/dns/records", "PATCH",
            [bearerHeader tok, contentTypeJson],
            some (Val.obj [("records", Val.arr [Val.obj
              [("id", rid),
               ("type", (objGet kvs "type").getD (Val.str "TXT")),
               ("name", (objGet kvs "name").getD (Val.str "test-2")),
               ("value", (objGet kvs "value").getD (Val.str "test-2")),
               ("ttl", (objGet kvs "ttl").getD (Val.num 3600))]])])⟩])
    ∧ toolFieldDefault "createDnsRecord" "type" = some (Val.str "TXT")
    ∧ toolFieldDefault "createDnsRecord" "name" = some (Val.str "test")
    ∧ toolFieldDefault "createDnsRecord" "value" = some (Val.str "test-1")
    ∧ toolFieldDefault "createDnsRecord" "ttl" = some (Val.num 3600)
    ∧ toolFieldDefault "updateDnsRecord" "type" = some (Val.str "TXT")
    ∧ toolFieldDefault "updateDnsRecord" "name" = some (Val.str "test-2")
    ∧ toolFieldDefault "updateDnsRecord" "value" = some (Val.str "test-2")
    ∧ toolFieldDefault "updateDnsRecord" "ttl" = some (Val.num 3600) := by
  have hrd : ∀ kvs : List (String × Val), requireDestructurable (some (Val.obj kvs))
      = Except.ok (Val.obj kvs) := fun _ => rfl
  have hjf : ∀ (kvs : List (String × Val)) (k : String),
      jsField (Val.obj kvs) k = objGet kvs k := fun _ _ => rfl
  refine ⟨?_, ?_, rfl, rfl, rfl, rfl, rfl, rfl, rfl, rfl⟩
  · intro tok d kvs ct rs htok
    unfold Sherlock.createDns M.withAuth
    cases rs with
    | nil =>
      simp [bind_eq_M_bind, M.bind, M.getState, M.ofExcept, M.fetch, M.throw, htok,
        hrd, hjf, jsonEntries, handleResponse_trace]
    | cons r rest =>
      simp [bind_eq_M_bind, M.bind, M.getState, M.ofExcept, M.fetch, M.throw, htok,
        hrd, hjf, jsonEntries, handleResponse_trace]
  · intro tok d rid kvs ct rs htok
    unfold Sherlock.updateDns M.withAuth
    cases rs with
    | nil =>
      simp [bind_eq_M_bind, M.bind, M.getState, M.ofExcept, M.fetch, M.throw, htok,
        hrd, hjf, jsonEntries, handleResponse_trace]
    | cons r rest =>
      simp [bind_eq_M_bind, M.bind, M.getState, M.ofExcept, M.fetch, M.throw, htok,
        hrd, hjf, jsonEntries, handleResponse_trace]

/-- Closed instances of the DNS default filling: an empty creation
descriptor, where all four documented defaults — the `value` default
`test-1` included — reach the request body; an update descriptor
supplying only `type`, where the supplied value passes through while the
`name`/`value`/`ttl` defaults (`test-2`, `test-2`, 3600) fill in; and a
creation descriptor supplying only `value`, where the caller's value
passes through while the other three defaults fill in. -/
theorem dns_defaults_witness :
    ((Sherlock.createDns (some (Val.str "dom1")) (some (Val.obj []))
        ⟨some "tok", none⟩ []).trace
      = [⟨API_URL ++ "/api/v0/domains/" ++ jsToString (some (Val.str "dom1")) ++ "/dns/records",
          "POST", [bearerHeader "tok", contentTypeJson],
          some (Val.obj [("records", Val.arr [Val.obj
            [("type", Val.str "TXT"), ("name", Val.str "test"),
             ("value", Val.str "test-1"), ("ttl", Val.num 3600)]])])⟩])
    ∧ ((Sherlock.updateDns (some (Val.str "dom1")) (some (Val.str "rec1"))
        (some (Val.obj [("type", Val.str "A")])) ⟨some "tok", none⟩ []).trace
      = [⟨API_URL ++ "/api/v0/domains/" ++ jsToString (some (Val.str "dom1")) ++ "/dns/records",
          "PATCH", [bearerHeader "tok", contentTypeJson],
          some (Val.obj [("records", Val.arr [Val.obj
            [("id", Val.str "rec1"), ("type", Val.str "A"), ("name", Val.str "test-2"),
             ("value", Val.str "test-2"), ("ttl", Val.num 3600)]])])⟩])
    ∧ ((Sherlock.createDns (some (Val.str "dom1")) (some (Val.obj [("value", Val.str "v1")]))
        ⟨some "tok", none⟩ []).trace
      = [⟨API_URL ++ "/api/v0/domains/" ++ jsToString (some (Val.str "dom1")) ++ "/dns/records",
          "POST", [bearerHeader "tok", contentTypeJson],
          some (Val.obj [("records", Val.arr [Val.obj
            [("type", Val.str "TXT"), ("name", Val.str "test"),
             ("value", Val.str "v1"), ("ttl", Val.num 3600)]])])⟩]) :=
  ⟨dns_defaults.1 "tok" (some (Val.str "dom1")) [] none [] (by decide),
   dns_defaults.2.1 "tok" (some (Val.str "dom1")) (Val.str "rec1")
     [("type", Val.str "A")] none [] (by decide),
   dns_defaults.1 "tok" (some (Val.str "dom1")) [("value", Val.str "v1")] none []
     (by decide)⟩

/-- Refutation of full coverage: `getPurchaseOffers` is a public remote
operation of the client, yet no entry of the `asTools` mapping forwards
to it (only `getPaymentDetails` was claimed exempt). -/
theorem asTools_missing_getPurchaseOffers :
    ClientOp.getPurchaseOffers ∈ remoteOperations
    ∧ ¬ ClientOp.getPurchaseOffers ∈ (Sherlock.asTools.map fun p => p.2.target) := by
  constructor
  · decide
  · decide

/-- C6 (amended): the tool mapping holds exactly one entry per public
remote client operation except the payment-submission primitive
`getPaymentDetails` AND the non-X402 offer request `getPurchaseOffers`;
each entry's `execute` does nothing beyond destructuring its declared
argument object and forwarding to the matching client method, returning
that method's outcome. -/
theorem asTools_coverage :
    (Sherlock.asTools.map fun p => p.2.target).Nodup
    ∧ List.Perm (Sherlock.asTools.map fun p => p.2.target)
        (remoteOperations.filter fun op =>
          !(op == ClientOp.getPaymentDetails || op == ClientOp.getPurchaseOffers))
    ∧ (∀ args st rs, toolExecute "me" args st rs = Sherlock.me st rs)
    ∧ (∀ args st rs, toolExecute "setContactInformation" args st rs
        = Sherlock.setContactInformation args st rs)
    ∧ (∀ args st rs, toolExecute "getContactInformation" args st rs
        = Sherlock.getContactInformation st rs)
    ∧ (∀ a st rs, toolExecute "searchDomains" (some (Val.obj a)) st rs
        = Sherlock.search (objGet a "query") st rs)
    ∧ (∀ a st rs, toolExecute "purchaseDomain" (some (Val.obj a)) st rs
        = Sherlock.purchaseDomain (objGet a "searchId") (objGet a "domain")
            (some ((objGet a "paymentMethod").getD (Val.str "credit_card"))) st rs)
    ∧ (∀ args st rs, toolExecute "listDomains" args st rs = Sherlock.domains st rs)
    ∧ (∀ a st rs, toolExecute "getDnsRecords" (some (Val.obj a)) st rs
        = Sherlock.dnsRecords (objGet a "domainId") st rs)
    ∧ (∀ a st rs, toolExecute "createDnsRecord" (some (Val.obj a)) st rs
        = Sherlock.createDns (objGet a "domainId")
            (some (restObj (Val.obj a) ["domainId"])) st rs)
    ∧ (∀ a st rs, toolExecute "updateDnsRecord" (some (Val.obj a)) st rs
        = Sherlock.updateDns (objGet a "domainId") (objGet a "recordId")
            (some (restObj (Val.obj a) ["domainId", "recordId"])) st rs)
    ∧ (∀ a st rs, toolExecute "deleteDnsRecord" (some (Val.obj a)) st rs
        = Sherlock.deleteDns (objGet a "domainId") (objGet a "recordId") st rs)
    ∧ (∀ a st rs, toolExecute "claimAccount" (some (Val.obj a)) st rs
        = Sherlock.claimAccount (objGet a "email") st rs)
    ∧ (∀ a st rs, toolExecute "updateNameservers" (some (Val.obj a)) st rs
        = Sherlock.updateNameservers (objGet a "domainId") (objGet a "nameservers") st rs)
    ∧ (∀ a st rs, toolExecute "getX402PurchaseOffers" (some (Val.obj a)) st rs
        = Sherlock.getX402PurchaseOffers (objGet a "domain") (objGet a "searchId") none st rs)
    ∧ (∀ a st rs, toolExecute "purchaseX402" (some (Val.obj a)) st rs
        = Sherlock.purchaseX402 (objGet a "domain") (objGet a "searchId")
            (objGet a "paymentSignature") none st rs) := by
  refine ⟨by decide, by decide,
    fun args st rs => rfl, fun args st rs => rfl, fun args st rs => rfl,
    fun a st rs => rfl, fun a st rs => rfl, fun args st rs => rfl,
    fun a st rs => rfl, fun a st rs => rfl, fun a st rs => rfl,
    fun a st rs => rfl, fun a st rs => rfl, fun a st rs => rfl,
    fun a st rs => rfl, fun a st rs => rfl⟩
